import Mathlib

/-!
Shallow embedding of src/src/Native/LibTorchSharp/THSConvolution.cpp, the
C-linkage shim that translates flat primitive parameters into torch option
records, constructs modules under a catch boundary, and marshals tensors.

Machine integers (int64_t) are modelled as Int: the shim performs no
arithmetic on them, only equality comparisons and pass-through, so overflow
never arises. Caller-supplied arrays (const int64_t*) are modelled as
List Int (the readable memory behind the pointer); a nullable array is an
Option (List Int). The wrapped torch library is out of scope: module
construction and forward computation appear as explicit function parameters,
and an options record built by a constructor is the observable result of the
translation this file performs.
-/

/-- Boundary-fill policy slot of a torch convolution options record
(torch::kZeros / kReflect / kReplicate / kCircular). -/
inductive PaddingMode where
  | zeros
  | reflect
  | replicate
  | circular
deriving DecidableEq, Repr

/-- The padding slot of torch::nn::ConvOptions, a variant of a numeric
per-axis width list (ExpandingArray), torch::kSame, or torch::kValid. -/
inductive ConvPadding where
  | size (widths : List Int)
  | same
  | valid
deriving DecidableEq, Repr

/-- torch::ExpandingArray of dimension d built from a single scalar: the
scalar repeated across every axis. -/
def expandingArray (d : Nat) (v : Int) : List Int :=
  List.replicate d v

/-- at::ArrayRef of int64_t built from a data pointer and an element count:
the first len elements of the caller array. -/
def arrayRef (data : List Int) (len : Nat) : List Int :=
  data.take len

/-- torch::nn::ConvOptions, the slots this shim sets. Construction from
(in_channels, out_channels, kernel_size) leaves the library defaults:
stride 1, padding 0, dilation 1, groups 1, bias true, padding_mode zeros. -/
structure ConvOptions where
  in_channels : Int
  out_channels : Int
  kernel_size : List Int
  stride : List Int
  padding : ConvPadding
  dilation : List Int
  groups : Int
  bias : Bool
  padding_mode : PaddingMode
deriving DecidableEq, Repr

/-- torch::nn::ConvOptions constructor with library defaults for the slots
not passed, for dimensionality d. -/
def ConvOptions.init (d : Nat) (inC outC : Int) (k : List Int) : ConvOptions :=
  { in_channels := inC
    out_channels := outC
    kernel_size := k
    stride := expandingArray d 1
    padding := ConvPadding.size (expandingArray d 0)
    dilation := expandingArray d 1
    groups := 1
    bias := true
    padding_mode := PaddingMode.zeros }

/-- torch::nn::ConvTransposeOptions, the slots this shim sets. Its padding
slot is a plain ExpandingArray: the transposed-convolution options type has
no same/valid variant. Library defaults: stride 1, padding 0,
output_padding 0, dilation 1, groups 1, bias true, padding_mode zeros. -/
structure ConvTransposeOptions where
  in_channels : Int
  out_channels : Int
  kernel_size : List Int
  stride : List Int
  padding : List Int
  output_padding : List Int
  dilation : List Int
  groups : Int
  bias : Bool
  padding_mode : PaddingMode
deriving DecidableEq, Repr

/-- torch::nn::ConvTransposeOptions constructor with library defaults, for
dimensionality d. -/
def ConvTransposeOptions.init (d : Nat) (inC outC : Int) (k : List Int) :
    ConvTransposeOptions :=
  { in_channels := inC
    out_channels := outC
    kernel_size := k
    stride := expandingArray d 1
    padding := expandingArray d 0
    output_padding := expandingArray d 0
    dilation := expandingArray d 1
    groups := 1
    bias := true
    padding_mode := PaddingMode.zeros }

/-- ApplyPaddingMode (THSConvolution.cpp lines 362-373): four sequential
ifs on the enum value, each assigning the padding_mode slot; the function
returns the resulting value of that slot. -/
def ApplyPaddingMode (padding_mode : PaddingMode) (padding : Int) : PaddingMode :=
  let pm := if padding = 0 then PaddingMode.zeros else padding_mode
  let pm := if padding = 1 then PaddingMode.reflect else pm
  let pm := if padding = 2 then PaddingMode.replicate else pm
  if padding = 3 then PaddingMode.circular else pm

/-- Options built by THSNN_Conv1d_ctor (lines 375-398): padd starts as the
numeric padding value, is replaced by kSame when padding equals -1 (note:
no kValid mapping for 0 here), then the option chain and ApplyPaddingMode. -/
def THSNN_Conv1d_buildOptions (inputChannel outputChannel kernelSize stride
    padding dilation paddingMode groups : Int) (bias : Bool) : ConvOptions :=
  let padd : ConvPadding := ConvPadding.size (expandingArray 1 padding)
  let padd := if padding = -1 then ConvPadding.same else padd
  let opts :=
    { ConvOptions.init 1 inputChannel outputChannel (expandingArray 1 kernelSize) with
      stride := expandingArray 1 stride
      padding := padd
      dilation := expandingArray 1 dilation
      groups := groups
      bias := bias }
  { opts with padding_mode := ApplyPaddingMode opts.padding_mode paddingMode }

/-- Options built by THSNN_Conv2d_ctor (lines 425-446): padding -1 maps to
kSame, 0 to kValid, anything else is the numeric width on both axes. -/
def THSNN_Conv2d_buildOptions (inputChannel outputChannel kernelSize stride
    padding dilation paddingMode groups : Int) (bias : Bool) : ConvOptions :=
  let padd : ConvPadding :=
    if padding = -1 then ConvPadding.same
    else if padding = 0 then ConvPadding.valid
    else ConvPadding.size (expandingArray 2 padding)
  let opts :=
    { ConvOptions.init 2 inputChannel outputChannel (expandingArray 2 kernelSize) with
      stride := expandingArray 2 stride
      padding := padd
      dilation := expandingArray 2 dilation
      groups := groups
      bias := bias }
  { opts with padding_mode := ApplyPaddingMode opts.padding_mode paddingMode }

/-- Options built by THSNN_Conv2d_ctor_1 (lines 448-472), the per-axis
overload: the sentinel test reads paddingX only; the numeric branch uses
the pair (paddingX, paddingY). -/
def THSNN_Conv2d_ctor_1_buildOptions (inputChannel outputChannel kernelX kernelY
    strideX strideY paddingX paddingY dilationX dilationY paddingMode groups : Int)
    (bias : Bool) : ConvOptions :=
  let padd : ConvPadding :=
    if paddingX = -1 then ConvPadding.same
    else if paddingX = 0 then ConvPadding.valid
    else ConvPadding.size [paddingX, paddingY]
  let opts :=
    { ConvOptions.init 2 inputChannel outputChannel [kernelX, kernelY] with
      stride := [strideX, strideY]
      padding := padd
      dilation := [dilationX, dilationY]
      groups := groups
      bias := bias }
  { opts with padding_mode := ApplyPaddingMode opts.padding_mode paddingMode }

/-- Options built by THSNN_Conv3d_ctor (lines 499-520): padding -1 maps to
kSame, 0 to kValid, anything else is the numeric width on all three axes. -/
def THSNN_Conv3d_buildOptions (inputChannel outputChannel kernelSize stride
    padding dilation paddingMode groups : Int) (bias : Bool) : ConvOptions :=
  let padd : ConvPadding :=
    if padding = -1 then ConvPadding.same
    else if padding = 0 then ConvPadding.valid
    else ConvPadding.size (expandingArray 3 padding)
  let opts :=
    { ConvOptions.init 3 inputChannel outputChannel (expandingArray 3 kernelSize) with
      stride := expandingArray 3 stride
      padding := padd
      dilation := expandingArray 3 dilation
      groups := groups
      bias := bias }
  { opts with padding_mode := ApplyPaddingMode opts.padding_mode paddingMode }

/-- Options built by THSNN_Conv3d_ctor_1 (lines 522-546), the per-axis
overload: the sentinel test reads paddingX only; the numeric branch uses
the triple (paddingX, paddingY, paddingZ). -/
def THSNN_Conv3d_ctor_1_buildOptions (inputChannel outputChannel
    kernelX kernelY kernelZ strideX strideY strideZ paddingX paddingY paddingZ
    dilationX dilationY dilationZ paddingMode groups : Int) (bias : Bool) : ConvOptions :=
  let padd : ConvPadding :=
    if paddingX = -1 then ConvPadding.same
    else if paddingX = 0 then ConvPadding.valid
    else ConvPadding.size [paddingX, paddingY, paddingZ]
  let opts :=
    { ConvOptions.init 3 inputChannel outputChannel [kernelX, kernelY, kernelZ] with
      stride := [strideX, strideY, strideZ]
      padding := padd
      dilation := [dilationX, dilationY, dilationZ]
      groups := groups
      bias := bias }
  { opts with padding_mode := ApplyPaddingMode opts.padding_mode paddingMode }

/-- Options built by THSNN_ConvTranspose1d_ctor (lines 574-591): the padding
argument is passed numerically to the padding slot, with no sentinel test. -/
def THSNN_ConvTranspose1d_buildOptions (inputChannel outputChannel kernelSize
    stride padding output_padding dilation paddingMode groups : Int) (bias : Bool) :
    ConvTransposeOptions :=
  let opts :=
    { ConvTransposeOptions.init 1 inputChannel outputChannel (expandingArray 1 kernelSize) with
      stride := expandingArray 1 stride
      padding := expandingArray 1 padding
      dilation := expandingArray 1 dilation
      groups := groups
      bias := bias
      output_padding := expandingArray 1 output_padding }
  { opts with padding_mode := ApplyPaddingMode opts.padding_mode paddingMode }

/-- Options built by THSNN_ConvTranspose2d_ctor (lines 618-635): numeric
padding only, no sentinel test. -/
def THSNN_ConvTranspose2d_buildOptions (inputChannel outputChannel kernelSize
    stride padding output_padding dilation paddingMode groups : Int) (bias : Bool) :
    ConvTransposeOptions :=
  let opts :=
    { ConvTransposeOptions.init 2 inputChannel outputChannel (expandingArray 2 kernelSize) with
      stride := expandingArray 2 stride
      padding := expandingArray 2 padding
      dilation := expandingArray 2 dilation
      groups := groups
      bias := bias
      output_padding := expandingArray 2 output_padding }
  { opts with padding_mode := ApplyPaddingMode opts.padding_mode paddingMode }

/-- Options built by THSNN_ConvTranspose3d_ctor (lines 662-679): numeric
padding only, no sentinel test. -/
def THSNN_ConvTranspose3d_buildOptions (inputChannel outputChannel kernelSize
    stride padding output_padding dilation paddingMode groups : Int) (bias : Bool) :
    ConvTransposeOptions :=
  let opts :=
    { ConvTransposeOptions.init 3 inputChannel outputChannel (expandingArray 3 kernelSize) with
      stride := expandingArray 3 stride
      padding := expandingArray 3 padding
      dilation := expandingArray 3 dilation
      groups := groups
      bias := bias
      output_padding := expandingArray 3 output_padding }
  { opts with padding_mode := ApplyPaddingMode opts.padding_mode paddingMode }

/-- torch::nn::AvgPoolOptions, the slots this shim sets. A stride of none
means the stride setter was never called, so the constructed module uses
the wrapped library default for that option. -/
structure AvgPoolOptions where
  kernel_size : List Int
  stride : Option (List Int)
deriving DecidableEq, Repr

/-- torch::nn::MaxPoolOptions, the slots this shim sets. A field of none
means the corresponding setter was never called, so the constructed module
uses the wrapped library default for that option. -/
structure MaxPoolOptions where
  kernel_size : List Int
  ceil_mode : Bool
  stride : Option (List Int)
  padding : Option (List Int)
  dilation : Option (List Int)
deriving DecidableEq, Repr

/-- Options built by THSNN_AvgPool1d_ctor (lines 8-17): no length
parameters, every ArrayRef is built with element count 1; a null stride
pointer skips the stride setter. -/
def THSNN_AvgPool1d_buildOptions (kernelSize : List Int)
    (stride : Option (List Int)) : AvgPoolOptions :=
  let opts : AvgPoolOptions := { kernel_size := arrayRef kernelSize 1, stride := none }
  match stride with
  | some s => { opts with stride := some (arrayRef s 1) }
  | none => opts

/-- Options built by THSNN_AvgPool2d_ctor (lines 24-33): ArrayRefs use the
caller-supplied explicit lengths. -/
def THSNN_AvgPool2d_buildOptions (kernelSize : List Int) (kernelSizeLength : Nat)
    (stride : Option (List Int)) (strideLength : Nat) : AvgPoolOptions :=
  let opts : AvgPoolOptions :=
    { kernel_size := arrayRef kernelSize kernelSizeLength, stride := none }
  match stride with
  | some s => { opts with stride := some (arrayRef s strideLength) }
  | none => opts

/-- Options built by THSNN_AvgPool3d_ctor (lines 40-49): ArrayRefs use the
caller-supplied explicit lengths. -/
def THSNN_AvgPool3d_buildOptions (kernelSize : List Int) (kernelSizeLength : Nat)
    (stride : Option (List Int)) (strideLength : Nat) : AvgPoolOptions :=
  let opts : AvgPoolOptions :=
    { kernel_size := arrayRef kernelSize kernelSizeLength, stride := none }
  match stride with
  | some s => { opts with stride := some (arrayRef s strideLength) }
  | none => opts

/-- Options built by THSNN_MaxPool1d_ctor (lines 140-154): no length
parameters, every ArrayRef is built with element count 1; a null pointer
for stride, padding or dilation skips the corresponding setter. -/
def THSNN_MaxPool1d_buildOptions (kernelSize : List Int)
    (stride padding dilation : Option (List Int)) (ceil_mode : Bool) : MaxPoolOptions :=
  let opts : MaxPoolOptions :=
    { kernel_size := arrayRef kernelSize 1, ceil_mode := ceil_mode
      stride := none, padding := none, dilation := none }
  let opts := match stride with
    | some s => { opts with stride := some (arrayRef s 1) }
    | none => opts
  let opts := match padding with
    | some p => { opts with padding := some (arrayRef p 1) }
    | none => opts
  match dilation with
  | some d => { opts with dilation := some (arrayRef d 1) }
  | none => opts

/-- Options built by THSNN_MaxPool2d_ctor (lines 169-184): ArrayRefs use
the caller-supplied explicit lengths; null pointers skip the setters. -/
def THSNN_MaxPool2d_buildOptions (kernelSize : List Int) (kernelSizeLength : Nat)
    (stride : Option (List Int)) (strideLength : Nat)
    (padding : Option (List Int)) (paddingLength : Nat)
    (dilation : Option (List Int)) (dilationLength : Nat)
    (ceil_mode : Bool) : MaxPoolOptions :=
  let opts : MaxPoolOptions :=
    { kernel_size := arrayRef kernelSize kernelSizeLength, ceil_mode := ceil_mode
      stride := none, padding := none, dilation := none }
  let opts := match stride with
    | some s => { opts with stride := some (arrayRef s strideLength) }
    | none => opts
  let opts := match padding with
    | some p => { opts with padding := some (arrayRef p paddingLength) }
    | none => opts
  match dilation with
  | some d => { opts with dilation := some (arrayRef d dilationLength) }
  | none => opts

/-- Options built by THSNN_MaxPool3d_ctor (lines 199-214): ArrayRefs use
the caller-supplied explicit lengths; null pointers skip the setters. -/
def THSNN_MaxPool3d_buildOptions (kernelSize : List Int) (kernelSizeLength : Nat)
    (stride : Option (List Int)) (strideLength : Nat)
    (padding : Option (List Int)) (paddingLength : Nat)
    (dilation : Option (List Int)) (dilationLength : Nat)
    (ceil_mode : Bool) : MaxPoolOptions :=
  let opts : MaxPoolOptions :=
    { kernel_size := arrayRef kernelSize kernelSizeLength, ceil_mode := ceil_mode
      stride := none, padding := none, dilation := none }
  let opts := match stride with
    | some s => { opts with stride := some (arrayRef s strideLength) }
    | none => opts
  let opts := match padding with
    | some p => { opts with padding := some (arrayRef p paddingLength) }
    | none => opts
  match dilation with
  | some d => { opts with dilation := some (arrayRef d dilationLength) }
  | none => opts

/-- Process-wide last-error slot (spec sections 6 and 7): stores the most
recent fault description for later retrieval by the caller. -/
structure ErrState where
  lastError : Option String
deriving DecidableEq, Repr

/-- Modelled from the spec: the CATCH_RETURN_NNModule catch-boundary macro
lives in shared infrastructure outside this file (not under src/). Per
sections 4.1 and 7, it wraps the body of an exported constructor; any fault
raised by the body is caught, its description is recorded in the
process-wide last-error state, and a null module handle is returned; on
success the constructed handle is returned. A fallible body is an
Except String computation; a null handle is none. -/
def CATCH_RETURN_NNModule {M : Type} (body : Except String M) (s : ErrState) :
    Option M × ErrState :=
  match body with
  | Except.ok r => (some r, s)
  | Except.error msg => (none, { lastError := some msg })

/-- THSNN_Conv1d_ctor (lines 375-398): the sentinel computation for padd is
pure and happens before the catch boundary; option building and module
construction run inside it. create stands for the wrapped library call
create_module, which may fault. -/
def THSNN_Conv1d_ctor {M : Type} (create : ConvOptions → Except String M)
    (inputChannel outputChannel kernelSize stride padding dilation paddingMode
    groups : Int) (bias : Bool) (s : ErrState) : Option M × ErrState :=
  CATCH_RETURN_NNModule
    (create (THSNN_Conv1d_buildOptions inputChannel outputChannel kernelSize
      stride padding dilation paddingMode groups bias)) s

/-- THSNN_AvgPool1d_ctor (lines 8-17): option building and module
construction run inside the catch boundary. -/
def THSNN_AvgPool1d_ctor {M : Type} (create : AvgPoolOptions → Except String M)
    (kernelSize : List Int) (stride : Option (List Int)) (s : ErrState) :
    Option M × ErrState :=
  CATCH_RETURN_NNModule
    (create (THSNN_AvgPool1d_buildOptions kernelSize stride)) s

/-- Modelled from the spec: the plain CATCH macro (shared infrastructure,
not under src/). Per section 7 it runs the body, and on fault records the
description in last-error state and leaves the assignment target at its
prior value dflt. -/
def CATCH {α : Type} (body : Except String α) (dflt : α) (s : ErrState) :
    α × ErrState :=
  match body with
  | Except.ok r => (r, s)
  | Except.error msg => (dflt, { lastError := some msg })

/-- Modelled from the spec: the ResultTensor wrap-tensor-for-transit helper
(shared infrastructure, not under src/). It boxes a defined at::Tensor into
a fresh transit handle and yields the null handle for an undefined
(default-constructed) tensor, matching the null-result convention of
section 7. An at::Tensor value is Option T with none for undefined. -/
def ResultTensor {T : Type} (t : Option T) : Option T :=
  match t with
  | some v => some v
  | none => none

/-- THSNN_MaxPool1d_forward_with_indices (lines 161-167): res is a
default-constructed pair of undefined tensors; CATCH runs the forward
computation; then, unconditionally, the indices out-parameter is assigned
ResultTensor of the second component and ResultTensor of the first is
returned. fwi stands for the module forward_with_indices computation;
indicesSlot is the prior content of the caller memory behind the indices
pointer; the result is (returned handle, final indices slot, state). -/
def THSNN_MaxPool1d_forward_with_indices {T : Type}
    (fwi : T → Except String (T × T)) (tensor : T) (indicesSlot : Option T)
    (s : ErrState) : Option T × Option T × ErrState :=
  let res : Option T × Option T := (none, none)
  let step := CATCH ((fwi tensor).map fun p => (some p.1, some p.2)) res s
  let res := step.1
  let indices := ResultTensor res.2
  (ResultTensor res.1, indices, step.2)

/-- THSNN_MaxPool2d_forward_with_indices (lines 191-197): same body shape
as the 1d variant. -/
def THSNN_MaxPool2d_forward_with_indices {T : Type}
    (fwi : T → Except String (T × T)) (tensor : T) (indicesSlot : Option T)
    (s : ErrState) : Option T × Option T × ErrState :=
  let res : Option T × Option T := (none, none)
  let step := CATCH ((fwi tensor).map fun p => (some p.1, some p.2)) res s
  let res := step.1
  let indices := ResultTensor res.2
  (ResultTensor res.1, indices, step.2)

/-- THSNN_MaxPool3d_forward_with_indices (lines 221-227): same body shape
as the 1d variant. -/
def THSNN_MaxPool3d_forward_with_indices {T : Type}
    (fwi : T → Except String (T × T)) (tensor : T) (indicesSlot : Option T)
    (s : ErrState) : Option T × Option T × ErrState :=
  let res : Option T × Option T := (none, none)
  let step := CATCH ((fwi tensor).map fun p => (some p.1, some p.2)) res s
  let res := step.1
  let indices := ResultTensor res.2
  (ResultTensor res.1, indices, step.2)

/-- Modelled from the spec: the parameter state of a convolution or
transposed-convolution module as seen through the shared get_weight,
set_weight, get_bias and set_bias helpers (THSNN.h, not under src/). Per
sections 4.1 and 5, the getters return the current parameter tensor handle,
aliasing the tensor the module holds, and the setters replace the module
parameter with the supplied handle. A tensor handle is a value of T, so
handle equality is reference identity. -/
structure ConvParams (T : Type) where
  weight : T
  bias : T
deriving DecidableEq, Repr

/-- Modelled from the spec: get_weight returns the current weight handle. -/
def get_weight {T : Type} (m : ConvParams T) : T :=
  m.weight

/-- Modelled from the spec: set_weight replaces the module weight with the
supplied handle. -/
def set_weight {T : Type} (m : ConvParams T) (w : T) : ConvParams T :=
  { m with weight := w }

/-- Modelled from the spec: get_bias returns the current bias handle. -/
def get_bias {T : Type} (m : ConvParams T) : T :=
  m.bias

/-- Modelled from the spec: set_bias replaces the module bias with the
supplied handle. -/
def set_bias {T : Type} (m : ConvParams T) (b : T) : ConvParams T :=
  { m with bias := b }

/-! Helper lemmas about the padding slot and fill-mode slot each
constructor produces. -/

lemma applyPaddingMode_table (pm : PaddingMode) :
    ApplyPaddingMode pm 0 = PaddingMode.zeros ∧
    ApplyPaddingMode pm 1 = PaddingMode.reflect ∧
    ApplyPaddingMode pm 2 = PaddingMode.replicate ∧
    ApplyPaddingMode pm 3 = PaddingMode.circular := by
  refine ⟨?_, ?_, ?_, ?_⟩ <;> simp [ApplyPaddingMode]

lemma applyPaddingMode_other (pm : PaddingMode) (m : Int)
    (h0 : m ≠ 0) (h1 : m ≠ 1) (h2 : m ≠ 2) (h3 : m ≠ 3) :
    ApplyPaddingMode pm m = pm := by
  simp [ApplyPaddingMode, h0, h1, h2, h3]

lemma conv1d_build_padding (ic oc k st p dil pm g : Int) (b : Bool) :
    (THSNN_Conv1d_buildOptions ic oc k st p dil pm g b).padding =
      if p = -1 then ConvPadding.same else ConvPadding.size [p] := by
  by_cases h : p = -1 <;>
    simp [THSNN_Conv1d_buildOptions, expandingArray, h]

lemma conv2d_build_padding (ic oc k st p dil pm g : Int) (b : Bool) :
    (THSNN_Conv2d_buildOptions ic oc k st p dil pm g b).padding =
      if p = -1 then ConvPadding.same
      else if p = 0 then ConvPadding.valid
      else ConvPadding.size [p, p] := by
  by_cases h : p = -1 <;> by_cases h0 : p = 0 <;>
    simp [THSNN_Conv2d_buildOptions, expandingArray, h, h0, List.replicate]

lemma conv3d_build_padding (ic oc k st p dil pm g : Int) (b : Bool) :
    (THSNN_Conv3d_buildOptions ic oc k st p dil pm g b).padding =
      if p = -1 then ConvPadding.same
      else if p = 0 then ConvPadding.valid
      else ConvPadding.size [p, p, p] := by
  by_cases h : p = -1 <;> by_cases h0 : p = 0 <;>
    simp [THSNN_Conv3d_buildOptions, expandingArray, h, h0, List.replicate]

lemma conv2d_1_build_padding (ic oc kx ky sx sy px py dx dy pm g : Int) (b : Bool) :
    (THSNN_Conv2d_ctor_1_buildOptions ic oc kx ky sx sy px py dx dy pm g b).padding =
      if px = -1 then ConvPadding.same
      else if px = 0 then ConvPadding.valid
      else ConvPadding.size [px, py] := by
  by_cases h : px = -1 <;> by_cases h0 : px = 0 <;>
    simp [THSNN_Conv2d_ctor_1_buildOptions, h, h0]

lemma conv3d_1_build_padding (ic oc kx ky kz sx sy sz px py pz dx dy dz pm g : Int)
    (b : Bool) :
    (THSNN_Conv3d_ctor_1_buildOptions ic oc kx ky kz sx sy sz px py pz dx dy dz
      pm g b).padding =
      if px = -1 then ConvPadding.same
      else if px = 0 then ConvPadding.valid
      else ConvPadding.size [px, py, pz] := by
  by_cases h : px = -1 <;> by_cases h0 : px = 0 <;>
    simp [THSNN_Conv3d_ctor_1_buildOptions, h, h0]

lemma convTranspose1d_build_padding (ic oc k st p opd dil pm g : Int) (b : Bool) :
    (THSNN_ConvTranspose1d_buildOptions ic oc k st p opd dil pm g b).padding = [p] := by
  simp [THSNN_ConvTranspose1d_buildOptions, expandingArray]

lemma convTranspose2d_build_padding (ic oc k st p opd dil pm g : Int) (b : Bool) :
    (THSNN_ConvTranspose2d_buildOptions ic oc k st p opd dil pm g b).padding = [p, p] := by
  simp [THSNN_ConvTranspose2d_buildOptions, expandingArray, List.replicate]

lemma convTranspose3d_build_padding (ic oc k st p opd dil pm g : Int) (b : Bool) :
    (THSNN_ConvTranspose3d_buildOptions ic oc k st p opd dil pm g b).padding =
      [p, p, p] := by
  simp [THSNN_ConvTranspose3d_buildOptions, expandingArray, List.replicate]

lemma conv1d_build_padding_mode (ic oc k st p dil pm g : Int) (b : Bool) :
    (THSNN_Conv1d_buildOptions ic oc k st p dil pm g b).padding_mode =
      ApplyPaddingMode PaddingMode.zeros pm := by
  simp [THSNN_Conv1d_buildOptions, ConvOptions.init]

lemma conv2d_build_padding_mode (ic oc k st p dil pm g : Int) (b : Bool) :
    (THSNN_Conv2d_buildOptions ic oc k st p dil pm g b).padding_mode =
      ApplyPaddingMode PaddingMode.zeros pm := by
  simp [THSNN_Conv2d_buildOptions, ConvOptions.init]

lemma conv2d_1_build_padding_mode (ic oc kx ky sx sy px py dx dy pm g : Int) (b : Bool) :
    (THSNN_Conv2d_ctor_1_buildOptions ic oc kx ky sx sy px py dx dy pm g b).padding_mode =
      ApplyPaddingMode PaddingMode.zeros pm := by
  simp [THSNN_Conv2d_ctor_1_buildOptions, ConvOptions.init]

lemma conv3d_build_padding_mode (ic oc k st p dil pm g : Int) (b : Bool) :
    (THSNN_Conv3d_buildOptions ic oc k st p dil pm g b).padding_mode =
      ApplyPaddingMode PaddingMode.zeros pm := by
  simp [THSNN_Conv3d_buildOptions, ConvOptions.init]

lemma conv3d_1_build_padding_mode (ic oc kx ky kz sx sy sz px py pz dx dy dz pm g : Int)
    (b : Bool) :
    (THSNN_Conv3d_ctor_1_buildOptions ic oc kx ky kz sx sy sz px py pz dx dy dz
      pm g b).padding_mode = ApplyPaddingMode PaddingMode.zeros pm := by
  simp [THSNN_Conv3d_ctor_1_buildOptions, ConvOptions.init]

lemma convTranspose1d_build_padding_mode (ic oc k st p opd dil pm g : Int) (b : Bool) :
    (THSNN_ConvTranspose1d_buildOptions ic oc k st p opd dil pm g b).padding_mode =
      ApplyPaddingMode PaddingMode.zeros pm := by
  simp [THSNN_ConvTranspose1d_buildOptions, ConvTransposeOptions.init]

lemma convTranspose2d_build_padding_mode (ic oc k st p opd dil pm g : Int) (b : Bool) :
    (THSNN_ConvTranspose2d_buildOptions ic oc k st p opd dil pm g b).padding_mode =
      ApplyPaddingMode PaddingMode.zeros pm := by
  simp [THSNN_ConvTranspose2d_buildOptions, ConvTransposeOptions.init]

lemma convTranspose3d_build_padding_mode (ic oc k st p opd dil pm g : Int) (b : Bool) :
    (THSNN_ConvTranspose3d_buildOptions ic oc k st p opd dil pm g b).padding_mode =
      ApplyPaddingMode PaddingMode.zeros pm := by
  simp [THSNN_ConvTranspose3d_buildOptions, ConvTransposeOptions.init]

/-- C1 counterexample: the sentinel convention is not applied identically
by every constructor. THSNN_Conv1d_ctor leaves padding 0 as the numeric
width 0 instead of selecting kValid, and THSNN_ConvTranspose1d_ctor passes
the reserved value -1 through as a numeric padding width instead of
selecting the same policy. -/
theorem conv_sentinel_counterexample :
    (THSNN_Conv1d_buildOptions 1 1 3 1 0 1 0 1 true).padding =
      ConvPadding.size [0] ∧
    (THSNN_Conv1d_buildOptions 1 1 3 1 0 1 0 1 true).padding ≠
      ConvPadding.valid ∧
    (THSNN_ConvTranspose1d_buildOptions 1 1 3 1 (-1) 0 1 0 1 true).padding =
      [-1] := by
  refine ⟨?_, ?_, ?_⟩ <;> decide

/-- C1 amended: the scalar and per-axis Conv2d and Conv3d constructors map
padding -1 to the same policy and 0 to the valid policy; the Conv1d
constructor maps only -1 to same and uses 0 as a numeric width; the
transposed-convolution constructors apply no sentinel at all and always use
the padding argument as a numeric width. -/
theorem conv_sentinel_amended (ic oc k st p opd dil pm g : Int) (b : Bool)
    (ky kz sy sz py pz dy dz : Int) :
    (THSNN_Conv1d_buildOptions ic oc k st p dil pm g b).padding =
      (if p = -1 then ConvPadding.same else ConvPadding.size [p]) ∧
    (THSNN_Conv2d_buildOptions ic oc k st p dil pm g b).padding =
      (if p = -1 then ConvPadding.same
       else if p = 0 then ConvPadding.valid
       else ConvPadding.size [p, p]) ∧
    (THSNN_Conv3d_buildOptions ic oc k st p dil pm g b).padding =
      (if p = -1 then ConvPadding.same
       else if p = 0 then ConvPadding.valid
       else ConvPadding.size [p, p, p]) ∧
    (THSNN_Conv2d_ctor_1_buildOptions ic oc k ky st sy p py dil dy pm g b).padding =
      (if p = -1 then ConvPadding.same
       else if p = 0 then ConvPadding.valid
       else ConvPadding.size [p, py]) ∧
    (THSNN_Conv3d_ctor_1_buildOptions ic oc k ky kz st sy sz p py pz dil dy dz
      pm g b).padding =
      (if p = -1 then ConvPadding.same
       else if p = 0 then ConvPadding.valid
       else ConvPadding.size [p, py, pz]) ∧
    (THSNN_ConvTranspose1d_buildOptions ic oc k st p opd dil pm g b).padding = [p] ∧
    (THSNN_ConvTranspose2d_buildOptions ic oc k st p opd dil pm g b).padding = [p, p] ∧
    (THSNN_ConvTranspose3d_buildOptions ic oc k st p opd dil pm g b).padding =
      [p, p, p] :=
  ⟨conv1d_build_padding ic oc k st p dil pm g b,
   conv2d_build_padding ic oc k st p dil pm g b,
   conv3d_build_padding ic oc k st p dil pm g b,
   conv2d_1_build_padding ic oc k ky st sy p py dil dy pm g b,
   conv3d_1_build_padding ic oc k ky kz st sy sz p py pz dil dy dz pm g b,
   convTranspose1d_build_padding ic oc k st p opd dil pm g b,
   convTranspose2d_build_padding ic oc k st p opd dil pm g b,
   convTranspose3d_build_padding ic oc k st p opd dil pm g b⟩

/-- C2: for the exported constructors, every fault raised while building
options or constructing the module is caught at the catch boundary; a fault
is recorded in the process-wide last-error state and converted to a null
module handle, and a success returns exactly the fully constructed module
handle, so no fault escapes and no partial module is returned. Shown for
THSNN_Conv1d_ctor and THSNN_AvgPool1d_ctor, whose bodies instantiate the
shared boundary CATCH_RETURN_NNModule. -/
theorem ctor_catch_boundary {M : Type} (create : ConvOptions → Except String M)
    (createP : AvgPoolOptions → Except String M)
    (ic oc k st p dil pm g : Int) (b : Bool)
    (ks : List Int) (strideArr : Option (List Int)) (s : ErrState) :
    ((∃ h, create (THSNN_Conv1d_buildOptions ic oc k st p dil pm g b) =
        Except.ok h ∧
        THSNN_Conv1d_ctor create ic oc k st p dil pm g b s = (some h, s)) ∨
     (∃ msg, create (THSNN_Conv1d_buildOptions ic oc k st p dil pm g b) =
        Except.error msg ∧
        THSNN_Conv1d_ctor create ic oc k st p dil pm g b s =
          (none, { lastError := some msg }))) ∧
    ((∃ h, createP (THSNN_AvgPool1d_buildOptions ks strideArr) = Except.ok h ∧
        THSNN_AvgPool1d_ctor createP ks strideArr s = (some h, s)) ∨
     (∃ msg, createP (THSNN_AvgPool1d_buildOptions ks strideArr) =
        Except.error msg ∧
        THSNN_AvgPool1d_ctor createP ks strideArr s =
          (none, { lastError := some msg }))) := by
  constructor
  · cases hc : create (THSNN_Conv1d_buildOptions ic oc k st p dil pm g b) with
    | ok h =>
        exact Or.inl ⟨h, rfl, by simp [THSNN_Conv1d_ctor, CATCH_RETURN_NNModule, hc]⟩
    | error msg =>
        exact Or.inr ⟨msg, rfl, by simp [THSNN_Conv1d_ctor, CATCH_RETURN_NNModule, hc]⟩
  · cases hc : createP (THSNN_AvgPool1d_buildOptions ks strideArr) with
    | ok h =>
        exact Or.inl ⟨h, rfl, by simp [THSNN_AvgPool1d_ctor, CATCH_RETURN_NNModule, hc]⟩
    | error msg =>
        exact Or.inr ⟨msg, rfl, by simp [THSNN_AvgPool1d_ctor, CATCH_RETURN_NNModule, hc]⟩

/-- C3 counterexample: on failure the indices out-parameter is not left
unset. With a forward computation that faults and a prior slot content of
some 7, the call overwrites the slot (ResultTensor of the
default-constructed undefined tensor, the null handle), so the slot no
longer holds its prior value. -/
theorem maxpool_fwi_failure_overwrites_indices :
    (THSNN_MaxPool1d_forward_with_indices
        (fun _ : Nat => (Except.error "shape mismatch" : Except String (Nat × Nat)))
        0 (some 7) { lastError := none }).2.1 ≠ some 7 := by
  decide

/-- C3 amended: for MaxPool1d, MaxPool2d and MaxPool3d
forward_with_indices, on success the returned value handle and the indices
out-parameter hold exactly the two tensors produced by the module forward
computation; on failure no tensor is delivered: the value result is the
null handle and the indices out-parameter is overwritten with the null
handle (not left unset), with the fault recorded in last-error state. -/
theorem maxpool_fwi_amended {T : Type} (fwi : T → Except String (T × T))
    (tensor : T) (slot : Option T) (s : ErrState) :
    ((∃ v ix, fwi tensor = Except.ok (v, ix) ∧
        THSNN_MaxPool1d_forward_with_indices fwi tensor slot s =
          (some v, some ix, s)) ∨
     (∃ msg, fwi tensor = Except.error msg ∧
        THSNN_MaxPool1d_forward_with_indices fwi tensor slot s =
          (none, none, { lastError := some msg }))) ∧
    ((∃ v ix, fwi tensor = Except.ok (v, ix) ∧
        THSNN_MaxPool2d_forward_with_indices fwi tensor slot s =
          (some v, some ix, s)) ∨
     (∃ msg, fwi tensor = Except.error msg ∧
        THSNN_MaxPool2d_forward_with_indices fwi tensor slot s =
          (none, none, { lastError := some msg }))) ∧
    ((∃ v ix, fwi tensor = Except.ok (v, ix) ∧
        THSNN_MaxPool3d_forward_with_indices fwi tensor slot s =
          (some v, some ix, s)) ∨
     (∃ msg, fwi tensor = Except.error msg ∧
        THSNN_MaxPool3d_forward_with_indices fwi tensor slot s =
          (none, none, { lastError := some msg }))) := by
  refine ⟨?_, ?_, ?_⟩ <;>
  · cases hc : fwi tensor with
    | ok r =>
        exact Or.inl ⟨r.1, r.2, by simp [hc],
          by simp [THSNN_MaxPool1d_forward_with_indices,
            THSNN_MaxPool2d_forward_with_indices,
            THSNN_MaxPool3d_forward_with_indices,
            CATCH, ResultTensor, Except.map, hc]⟩
    | error msg =>
        exact Or.inr ⟨msg, rfl,
          by simp [THSNN_MaxPool1d_forward_with_indices,
            THSNN_MaxPool2d_forward_with_indices,
            THSNN_MaxPool3d_forward_with_indices,
            CATCH, ResultTensor, Except.map, hc]⟩

/-- C4: calling a per-axis convolution constructor overload with equal
values on all axes builds exactly the options record the single-scalar
constructor builds from those shared values, hence (the module behavior
being a function of its options) a behaviorally identical module: the same
output tensor on every input, for any forward semantics. -/
theorem conv_per_axis_scalar_equiv (ic oc k st p dil pm g : Int) (b : Bool) :
    THSNN_Conv2d_ctor_1_buildOptions ic oc k k st st p p dil dil pm g b =
      THSNN_Conv2d_buildOptions ic oc k st p dil pm g b ∧
    THSNN_Conv3d_ctor_1_buildOptions ic oc k k k st st st p p p dil dil dil
        pm g b =
      THSNN_Conv3d_buildOptions ic oc k st p dil pm g b ∧
    ∀ (T : Type) (fwd : ConvOptions → T → T) (x : T),
      fwd (THSNN_Conv2d_ctor_1_buildOptions ic oc k k st st p p dil dil pm g b) x =
        fwd (THSNN_Conv2d_buildOptions ic oc k st p dil pm g b) x ∧
      fwd (THSNN_Conv3d_ctor_1_buildOptions ic oc k k k st st st p p p dil dil dil
          pm g b) x =
        fwd (THSNN_Conv3d_buildOptions ic oc k st p dil pm g b) x := by
  have h2 : THSNN_Conv2d_ctor_1_buildOptions ic oc k k st st p p dil dil pm g b =
      THSNN_Conv2d_buildOptions ic oc k st p dil pm g b := by
    by_cases h : p = -1 <;> by_cases h0 : p = 0 <;>
      simp [THSNN_Conv2d_ctor_1_buildOptions, THSNN_Conv2d_buildOptions,
        expandingArray, List.replicate, h, h0]
  have h3 : THSNN_Conv3d_ctor_1_buildOptions ic oc k k k st st st p p p dil dil dil
      pm g b = THSNN_Conv3d_buildOptions ic oc k st p dil pm g b := by
    by_cases h : p = -1 <;> by_cases h0 : p = 0 <;>
      simp [THSNN_Conv3d_ctor_1_buildOptions, THSNN_Conv3d_buildOptions,
        expandingArray, List.replicate, h, h0]
  exact ⟨h2, h3, fun T fwd x => ⟨by rw [h2], by rw [h3]⟩⟩

/-- C5: in every convolution and transposed-convolution constructor, the
paddingMode enum values 0, 1, 2, 3 set the padding-fill slot of the options
record to zeros, reflect, replicate, circular respectively, and the fill
mode is an independent slot: the padding-width slot of the built options
does not depend on the paddingMode argument. Each family is stated as the
quadruple of fill modes produced by the four enum values, paired with the
independence of the padding slot from the enum. -/
theorem padding_mode_enum_mapping (ic oc k st p opd dil g : Int) (b : Bool)
    (ky kz sy sz py pz dy dz : Int) :
    (((THSNN_Conv1d_buildOptions ic oc k st p dil 0 g b).padding_mode,
      (THSNN_Conv1d_buildOptions ic oc k st p dil 1 g b).padding_mode,
      (THSNN_Conv1d_buildOptions ic oc k st p dil 2 g b).padding_mode,
      (THSNN_Conv1d_buildOptions ic oc k st p dil 3 g b).padding_mode) =
        (PaddingMode.zeros, PaddingMode.reflect, PaddingMode.replicate,
         PaddingMode.circular) ∧
     ∀ m n : Int, (THSNN_Conv1d_buildOptions ic oc k st p dil m g b).padding =
       (THSNN_Conv1d_buildOptions ic oc k st p dil n g b).padding) ∧
    (((THSNN_Conv2d_buildOptions ic oc k st p dil 0 g b).padding_mode,
      (THSNN_Conv2d_buildOptions ic oc k st p dil 1 g b).padding_mode,
      (THSNN_Conv2d_buildOptions ic oc k st p dil 2 g b).padding_mode,
      (THSNN_Conv2d_buildOptions ic oc k st p dil 3 g b).padding_mode) =
        (PaddingMode.zeros, PaddingMode.reflect, PaddingMode.replicate,
         PaddingMode.circular) ∧
     ∀ m n : Int, (THSNN_Conv2d_buildOptions ic oc k st p dil m g b).padding =
       (THSNN_Conv2d_buildOptions ic oc k st p dil n g b).padding) ∧
    (((THSNN_Conv3d_buildOptions ic oc k st p dil 0 g b).padding_mode,
      (THSNN_Conv3d_buildOptions ic oc k st p dil 1 g b).padding_mode,
      (THSNN_Conv3d_buildOptions ic oc k st p dil 2 g b).padding_mode,
      (THSNN_Conv3d_buildOptions ic oc k st p dil 3 g b).padding_mode) =
        (PaddingMode.zeros, PaddingMode.reflect, PaddingMode.replicate,
         PaddingMode.circular) ∧
     ∀ m n : Int, (THSNN_Conv3d_buildOptions ic oc k st p dil m g b).padding =
       (THSNN_Conv3d_buildOptions ic oc k st p dil n g b).padding) ∧
    (((THSNN_Conv2d_ctor_1_buildOptions ic oc k ky st sy p py dil dy 0 g b).padding_mode,
      (THSNN_Conv2d_ctor_1_buildOptions ic oc k ky st sy p py dil dy 1 g b).padding_mode,
      (THSNN_Conv2d_ctor_1_buildOptions ic oc k ky st sy p py dil dy 2 g b).padding_mode,
      (THSNN_Conv2d_ctor_1_buildOptions ic oc k ky st sy p py dil dy 3 g b).padding_mode) =
        (PaddingMode.zeros, PaddingMode.reflect, PaddingMode.replicate,
         PaddingMode.circular) ∧
     ∀ m n : Int,
       (THSNN_Conv2d_ctor_1_buildOptions ic oc k ky st sy p py dil dy m g b).padding =
       (THSNN_Conv2d_ctor_1_buildOptions ic oc k ky st sy p py dil dy n g b).padding) ∧
    (((THSNN_Conv3d_ctor_1_buildOptions ic oc k ky kz st sy sz p py pz dil dy dz
        0 g b).padding_mode,
      (THSNN_Conv3d_ctor_1_buildOptions ic oc k ky kz st sy sz p py pz dil dy dz
        1 g b).padding_mode,
      (THSNN_Conv3d_ctor_1_buildOptions ic oc k ky kz st sy sz p py pz dil dy dz
        2 g b).padding_mode,
      (THSNN_Conv3d_ctor_1_buildOptions ic oc k ky kz st sy sz p py pz dil dy dz
        3 g b).padding_mode) =
        (PaddingMode.zeros, PaddingMode.reflect, PaddingMode.replicate,
         PaddingMode.circular) ∧
     ∀ m n : Int,
       (THSNN_Conv3d_ctor_1_buildOptions ic oc k ky kz st sy sz p py pz dil dy dz
         m g b).padding =
       (THSNN_Conv3d_ctor_1_buildOptions ic oc k ky kz st sy sz p py pz dil dy dz
         n g b).padding) ∧
    (((THSNN_ConvTranspose1d_buildOptions ic oc k st p opd dil 0 g b).padding_mode,
      (THSNN_ConvTranspose1d_buildOptions ic oc k st p opd dil 1 g b).padding_mode,
      (THSNN_ConvTranspose1d_buildOptions ic oc k st p opd dil 2 g b).padding_mode,
      (THSNN_ConvTranspose1d_buildOptions ic oc k st p opd dil 3 g b).padding_mode) =
        (PaddingMode.zeros, PaddingMode.reflect, PaddingMode.replicate,
         PaddingMode.circular) ∧
     ∀ m n : Int,
       (THSNN_ConvTranspose1d_buildOptions ic oc k st p opd dil m g b).padding =
       (THSNN_ConvTranspose1d_buildOptions ic oc k st p opd dil n g b).padding) ∧
    (((THSNN_ConvTranspose2d_buildOptions ic oc k st p opd dil 0 g b).padding_mode,
      (THSNN_ConvTranspose2d_buildOptions ic oc k st p opd dil 1 g b).padding_mode,
      (THSNN_ConvTranspose2d_buildOptions ic oc k st p opd dil 2 g b).padding_mode,
      (THSNN_ConvTranspose2d_buildOptions ic oc k st p opd dil 3 g b).padding_mode) =
        (PaddingMode.zeros, PaddingMode.reflect, PaddingMode.replicate,
         PaddingMode.circular) ∧
     ∀ m n : Int,
       (THSNN_ConvTranspose2d_buildOptions ic oc k st p opd dil m g b).padding =
       (THSNN_ConvTranspose2d_buildOptions ic oc k st p opd dil n g b).padding) ∧
    (((THSNN_ConvTranspose3d_buildOptions ic oc k st p opd dil 0 g b).padding_mode,
      (THSNN_ConvTranspose3d_buildOptions ic oc k st p opd dil 1 g b).padding_mode,
      (THSNN_ConvTranspose3d_buildOptions ic oc k st p opd dil 2 g b).padding_mode,
      (THSNN_ConvTranspose3d_buildOptions ic oc k st p opd dil 3 g b).padding_mode) =
        (PaddingMode.zeros, PaddingMode.reflect, PaddingMode.replicate,
         PaddingMode.circular) ∧
     ∀ m n : Int,
       (THSNN_ConvTranspose3d_buildOptions ic oc k st p opd dil m g b).padding =
       (THSNN_ConvTranspose3d_buildOptions ic oc k st p opd dil n g b).padding) := by
  refine ⟨⟨?_, ?_⟩, ⟨?_, ?_⟩, ⟨?_, ?_⟩, ⟨?_, ?_⟩, ⟨?_, ?_⟩, ⟨?_, ?_⟩, ⟨?_, ?_⟩,
    ⟨?_, ?_⟩⟩
  · simp [conv1d_build_padding_mode, ApplyPaddingMode]
  · intro m n; rw [conv1d_build_padding, conv1d_build_padding]
  · simp [conv2d_build_padding_mode, ApplyPaddingMode]
  · intro m n; rw [conv2d_build_padding, conv2d_build_padding]
  · simp [conv3d_build_padding_mode, ApplyPaddingMode]
  · intro m n; rw [conv3d_build_padding, conv3d_build_padding]
  · simp [conv2d_1_build_padding_mode, ApplyPaddingMode]
  · intro m n; rw [conv2d_1_build_padding, conv2d_1_build_padding]
  · simp [conv3d_1_build_padding_mode, ApplyPaddingMode]
  · intro m n; rw [conv3d_1_build_padding, conv3d_1_build_padding]
  · simp [convTranspose1d_build_padding_mode, ApplyPaddingMode]
  · intro m n; rw [convTranspose1d_build_padding, convTranspose1d_build_padding]
  · simp [convTranspose2d_build_padding_mode, ApplyPaddingMode]
  · intro m n; rw [convTranspose2d_build_padding, convTranspose2d_build_padding]
  · simp [convTranspose3d_build_padding_mode, ApplyPaddingMode]
  · intro m n; rw [convTranspose3d_build_padding, convTranspose3d_build_padding]

/-- C6: supplying a null pointer for an optional array parameter skips the
corresponding option setter, so the slot stays unset (none) and the
constructed module uses the wrapped library default for that option: shown
for stride in the three AvgPool constructors and for stride, padding and
dilation in the three MaxPool constructors. -/
theorem null_optional_array_leaves_default (ks : List Int) (kl sl pl dl : Nat)
    (cm : Bool) :
    (THSNN_AvgPool1d_buildOptions ks none).stride = none ∧
    (THSNN_AvgPool2d_buildOptions ks kl none sl).stride = none ∧
    (THSNN_AvgPool3d_buildOptions ks kl none sl).stride = none ∧
    ((THSNN_MaxPool1d_buildOptions ks none none none cm).stride = none ∧
     (THSNN_MaxPool1d_buildOptions ks none none none cm).padding = none ∧
     (THSNN_MaxPool1d_buildOptions ks none none none cm).dilation = none) ∧
    ((THSNN_MaxPool2d_buildOptions ks kl none sl none pl none dl cm).stride = none ∧
     (THSNN_MaxPool2d_buildOptions ks kl none sl none pl none dl cm).padding = none ∧
     (THSNN_MaxPool2d_buildOptions ks kl none sl none pl none dl cm).dilation = none) ∧
    ((THSNN_MaxPool3d_buildOptions ks kl none sl none pl none dl cm).stride = none ∧
     (THSNN_MaxPool3d_buildOptions ks kl none sl none pl none dl cm).padding = none ∧
     (THSNN_MaxPool3d_buildOptions ks kl none sl none pl none dl cm).dilation = none) := by
  refine ⟨rfl, rfl, rfl, ⟨rfl, rfl, rfl⟩, ⟨rfl, rfl, rfl⟩, ⟨rfl, rfl, rfl⟩⟩

/-- C7: on the parameter state shared by every convolution and
transposed-convolution module, calling the weight (resp. bias) setter with
a tensor handle and then the corresponding getter returns exactly the
handle that was set: an aliasing identity on the tensor reference, not a
defensive copy. -/
theorem weight_bias_set_get_identity {T : Type} (m : ConvParams T) (w c : T) :
    get_weight (set_weight m w) = w ∧ get_bias (set_bias m c) = c :=
  ⟨rfl, rfl⟩

/-- C8: a paddingMode value outside 0-3 is accepted without error:
ApplyPaddingMode performs no assignment and returns its input slot
unchanged, every convolution and transposed-convolution constructor leaves
the fill mode at the library default zeros, and construction proceeds
normally (a succeeding library constructor still yields the module handle
with the error state untouched). -/
theorem padding_mode_out_of_range (pm0 : PaddingMode) (m : Int)
    (h0 : m ≠ 0) (h1 : m ≠ 1) (h2 : m ≠ 2) (h3 : m ≠ 3) :
    ApplyPaddingMode pm0 m = pm0 ∧
    (∀ ic oc k st p opd dil g ky kz sy sz py pz dy dz : Int, ∀ b : Bool,
      (THSNN_Conv1d_buildOptions ic oc k st p dil m g b).padding_mode =
        PaddingMode.zeros ∧
      (THSNN_Conv2d_buildOptions ic oc k st p dil m g b).padding_mode =
        PaddingMode.zeros ∧
      (THSNN_Conv3d_buildOptions ic oc k st p dil m g b).padding_mode =
        PaddingMode.zeros ∧
      (THSNN_Conv2d_ctor_1_buildOptions ic oc k ky st sy p py dil dy m g b).padding_mode =
        PaddingMode.zeros ∧
      (THSNN_Conv3d_ctor_1_buildOptions ic oc k ky kz st sy sz p py pz dil dy dz
        m g b).padding_mode = PaddingMode.zeros ∧
      (THSNN_ConvTranspose1d_buildOptions ic oc k st p opd dil m g b).padding_mode =
        PaddingMode.zeros ∧
      (THSNN_ConvTranspose2d_buildOptions ic oc k st p opd dil m g b).padding_mode =
        PaddingMode.zeros ∧
      (THSNN_ConvTranspose3d_buildOptions ic oc k st p opd dil m g b).padding_mode =
        PaddingMode.zeros) ∧
    (∀ ic oc k st p dil g : Int, ∀ b : Bool, ∀ s : ErrState, ∀ h : Nat,
      THSNN_Conv1d_ctor (fun _ => Except.ok h) ic oc k st p dil m g b s =
        (some h, s)) := by
  have hid : ∀ pm : PaddingMode, ApplyPaddingMode pm m = pm := fun pm =>
    applyPaddingMode_other pm m h0 h1 h2 h3
  refine ⟨hid pm0, ?_, ?_⟩
  · intro ic oc k st p opd dil g ky kz sy sz py pz dy dz b
    refine ⟨?_, ?_, ?_, ?_, ?_, ?_, ?_, ?_⟩
    · rw [conv1d_build_padding_mode, hid]
    · rw [conv2d_build_padding_mode, hid]
    · rw [conv3d_build_padding_mode, hid]
    · rw [conv2d_1_build_padding_mode, hid]
    · rw [conv3d_1_build_padding_mode, hid]
    · rw [convTranspose1d_build_padding_mode, hid]
    · rw [convTranspose2d_build_padding_mode, hid]
    · rw [convTranspose3d_build_padding_mode, hid]
  · intro ic oc k st p dil g b s h
    rfl

/-- C8 witness: the out-of-range enum value 7 leaves the fill-mode slot
unchanged. -/
theorem padding_mode_out_of_range_witness :
    ApplyPaddingMode PaddingMode.zeros 7 = PaddingMode.zeros :=
  (padding_mode_out_of_range PaddingMode.zeros 7 (by decide) (by decide)
    (by decide) (by decide)).1

/-- C9: in the per-axis constructors THSNN_Conv2d_ctor_1 and
THSNN_Conv3d_ctor_1 the same/valid sentinel decision reads the X-axis
padding alone: when paddingX is -1 (or 0) the named policy is selected and
the supplied paddingY (and paddingZ) values are ignored entirely, whatever
they are. -/
theorem per_axis_sentinel_ignores_yz (ic oc kx ky kz sx sy sz px py pz dx dy dz
    pm g : Int) (b : Bool) (qy qz : Int) (hx : px = -1 ∨ px = 0) :
    THSNN_Conv2d_ctor_1_buildOptions ic oc kx ky sx sy px py dx dy pm g b =
      THSNN_Conv2d_ctor_1_buildOptions ic oc kx ky sx sy px qy dx dy pm g b ∧
    THSNN_Conv3d_ctor_1_buildOptions ic oc kx ky kz sx sy sz px py pz dx dy dz
        pm g b =
      THSNN_Conv3d_ctor_1_buildOptions ic oc kx ky kz sx sy sz px qy qz dx dy dz
        pm g b ∧
    (THSNN_Conv2d_ctor_1_buildOptions ic oc kx ky sx sy px py dx dy pm g b).padding =
      (if px = -1 then ConvPadding.same else ConvPadding.valid) ∧
    (THSNN_Conv3d_ctor_1_buildOptions ic oc kx ky kz sx sy sz px py pz dx dy dz
        pm g b).padding =
      (if px = -1 then ConvPadding.same else ConvPadding.valid) := by
  rcases hx with hx | hx <;> subst hx <;>
    refine ⟨?_, ?_, ?_, ?_⟩ <;>
      simp [THSNN_Conv2d_ctor_1_buildOptions, THSNN_Conv3d_ctor_1_buildOptions]

/-- C9 witness: with paddingX equal to -1 the per-axis 2d constructor
builds identical options for paddingY 5 and paddingY 99. -/
theorem per_axis_sentinel_ignores_yz_witness :
    THSNN_Conv2d_ctor_1_buildOptions 1 1 3 3 1 1 (-1) 5 1 1 0 1 true =
      THSNN_Conv2d_ctor_1_buildOptions 1 1 3 3 1 1 (-1) 99 1 1 0 1 true :=
  (per_axis_sentinel_ignores_yz 1 1 3 3 3 1 1 1 (-1) 5 7 1 1 1 0 1 true 99 77
    (Or.inl rfl)).1

/-- C10: the 1d pooling constructors take no length parameters and read
exactly one element from each non-null array argument, so further elements
supplied by the caller are ignored (the options built from a longer array
equal the options built from just its first element); the 2d and 3d
variants instead read exactly the caller-supplied explicit number of
elements from each array. -/
theorem pool_array_read_lengths (k s p d : Int) (ks ss ps ds : List Int)
    (cm : Bool) (arr st pa di : List Int) (kl sl pl dl : Nat) :
    (THSNN_AvgPool1d_buildOptions (k :: ks) none =
       THSNN_AvgPool1d_buildOptions [k] none ∧
     THSNN_AvgPool1d_buildOptions (k :: ks) (some (s :: ss)) =
       THSNN_AvgPool1d_buildOptions [k] (some [s])) ∧
    (THSNN_MaxPool1d_buildOptions (k :: ks) (some (s :: ss)) (some (p :: ps))
        (some (d :: ds)) cm =
       THSNN_MaxPool1d_buildOptions [k] (some [s]) (some [p]) (some [d]) cm) ∧
    ((THSNN_AvgPool2d_buildOptions arr kl (some st) sl).kernel_size =
        arr.take kl ∧
     (THSNN_AvgPool2d_buildOptions arr kl (some st) sl).stride =
        some (st.take sl) ∧
     (THSNN_AvgPool3d_buildOptions arr kl (some st) sl).kernel_size =
        arr.take kl ∧
     (THSNN_AvgPool3d_buildOptions arr kl (some st) sl).stride =
        some (st.take sl)) ∧
    ((THSNN_MaxPool2d_buildOptions arr kl (some st) sl (some pa) pl (some di)
        dl cm).kernel_size = arr.take kl ∧
     (THSNN_MaxPool2d_buildOptions arr kl (some st) sl (some pa) pl (some di)
        dl cm).stride = some (st.take sl) ∧
     (THSNN_MaxPool2d_buildOptions arr kl (some st) sl (some pa) pl (some di)
        dl cm).padding = some (pa.take pl) ∧
     (THSNN_MaxPool2d_buildOptions arr kl (some st) sl (some pa) pl (some di)
        dl cm).dilation = some (di.take dl) ∧
     (THSNN_MaxPool3d_buildOptions arr kl (some st) sl (some pa) pl (some di)
        dl cm).kernel_size = arr.take kl ∧
     (THSNN_MaxPool3d_buildOptions arr kl (some st) sl (some pa) pl (some di)
        dl cm).stride = some (st.take sl) ∧
     (THSNN_MaxPool3d_buildOptions arr kl (some st) sl (some pa) pl (some di)
        dl cm).padding = some (pa.take pl) ∧
     (THSNN_MaxPool3d_buildOptions arr kl (some st) sl (some pa) pl (some di)
        dl cm).dilation = some (di.take dl)) := by
  refine ⟨⟨?_, ?_⟩, ?_, ⟨rfl, rfl, rfl, rfl⟩, ⟨rfl, rfl, rfl, rfl, rfl, rfl, rfl, rfl⟩⟩ <;>
    simp [THSNN_AvgPool1d_buildOptions, THSNN_MaxPool1d_buildOptions, arrayRef]
